import Mathlib

/-!
Verification development for the generic drone test harness
(flood handling, fragment forwarding, fault injection, and the
order-tolerant assertion macro).

The message schema and the harness helper constructors are translated
from the test sources (`src/drone/flood_generics.rs`,
`src/drone/fragment_generics.rs`, `src/custom_macro.rs`).  The relay
(drone) core itself is not part of this repository - the tests are
generic over any `Drone` implementation - so the relay's behaviour is
modelled from the specification (sections 4.1 and 4.2), with doc
comments marking every such definition.
-/

/-! ## Message schema (fixed, given by the wire format the tests use) -/

abbrev NodeId := Nat

inductive NodeType
  | Client
  | Drone
  | Server
deriving DecidableEq, Repr

structure SourceRoutingHeader where
  hop_index : Nat
  hops : List NodeId
deriving DecidableEq, Repr

def SourceRoutingHeader.new (hops : List NodeId) (hop_index : Nat) : SourceRoutingHeader :=
  { hop_index := hop_index, hops := hops }

structure Fragment where
  fragment_index : Nat
  total_n_fragments : Nat
  length : Nat
  data : List Nat
deriving DecidableEq, Repr

inductive NackType
  | ErrorInRouting
  | DestinationIsDrone
  | Dropped
  | UnexpectedRecipient
deriving DecidableEq, Repr

structure Nack where
  fragment_index : Nat
  nack_type : NackType
deriving DecidableEq, Repr

structure FloodRequest where
  flood_id : Nat
  initiator_id : NodeId
  path_trace : List (NodeId × NodeType)
deriving DecidableEq, Repr

structure FloodResponse where
  flood_id : Nat
  path_trace : List (NodeId × NodeType)
deriving DecidableEq, Repr

inductive PacketType
  | Fragment (f : Fragment)
  | Ack (fragment_index : Nat)
  | Nack (n : Nack)
  | FloodRequest (fr : FloodRequest)
  | FloodResponse (fr : FloodResponse)
deriving DecidableEq, Repr

structure Packet where
  pack_type : PacketType
  routing_header : SourceRoutingHeader
  session_id : Nat
deriving DecidableEq, Repr

inductive DroneEvent
  | PacketSent (p : Packet)
  | PacketDropped (p : Packet)
deriving DecidableEq, Repr

def Packet.new_flood_response (h : SourceRoutingHeader) (sid : Nat) (fr : FloodResponse) : Packet :=
  { pack_type := PacketType.FloodResponse fr, routing_header := h, session_id := sid }

def Packet.new_fragment (h : SourceRoutingHeader) (sid : Nat) (f : Fragment) : Packet :=
  { pack_type := PacketType.Fragment f, routing_header := h, session_id := sid }

def Packet.new_ack (h : SourceRoutingHeader) (sid : Nat) (fragment_index : Nat) : Packet :=
  { pack_type := PacketType.Ack fragment_index, routing_header := h, session_id := sid }

def Packet.new_nack (h : SourceRoutingHeader) (sid : Nat) (n : Nack) : Packet :=
  { pack_type := PacketType.Nack n, routing_header := h, session_id := sid }

/-! ## Harness helper constructors (from the test sources) -/

def create_sample_flood_req (flood_id : Nat) (initiator_id : NodeId)
    (path_trace : List (NodeId × NodeType)) : Packet :=
  { pack_type := PacketType.FloodRequest
      { flood_id := flood_id, initiator_id := initiator_id, path_trace := path_trace },
    routing_header := { hop_index := 0, hops := [] },
    session_id := 1 }

def create_flood_res (flood_id : Nat) (path_trace : List (NodeId × NodeType))
    (routing_header : SourceRoutingHeader) : Packet :=
  Packet.new_flood_response routing_header 1
    { flood_id := flood_id, path_trace := path_trace }

def create_sample_packet (hop_index : Nat) (hops : List NodeId) : Packet :=
  Packet.new_fragment { hop_index := hop_index, hops := hops } 1
    { fragment_index := 1, total_n_fragments := 1, length := 128,
      data := List.replicate 128 1 }

def get_ack (hop_index : Nat) (hops : List NodeId) : Packet :=
  Packet.new_ack { hop_index := hop_index, hops := hops } 1 1

def get_nack (hop_index : Nat) (hops : List NodeId) (nack_type : NackType) : Packet :=
  Packet.new_nack { hop_index := hop_index, hops := hops } 1
    { fragment_index := 1, nack_type := nack_type }

/-- The order-tolerant assertion of the harness (`custom_macro.rs`):
the assertion passes exactly when the received value equals the first
expected value or the second. -/
def assert_matches_any {α : Type} [DecidableEq α] (res expected1 expected2 : α) : Bool :=
  decide (res = expected1) || decide (res = expected2)

/-- A two-iteration verification loop of the harness: two received
messages are each checked with `assert_matches_any` against the same
two expected values. -/
def two_recv_check {α : Type} [DecidableEq α] (r1 r2 expected1 expected2 : α) : Bool :=
  assert_matches_any r1 expected1 expected2 && assert_matches_any r2 expected1 expected2

/-! ## Relay (drone) core, modelled from the specification

The drone implementation under test is external to this repository
(the tests are generic over any conformant implementation), so the
relay core below is modelled from the specification, sections 4.1
(flood handling), 4.2 (forwarding engine) and 4.3 (event reporting).
The spec's NodeType tag for a relay appears as `NodeType.Drone`,
matching the tag the harness expects in traces. -/

/-- Modelled from the spec: relay-local state - own id, neighbor
table (here the list of neighbor ids), configured drop probability
(PDR, as an exact rational), and the flood memory of seen
(initiator_id, flood_id) pairs, which only grows. -/
structure RelayState where
  id : NodeId
  neighbors : List NodeId
  pdr : ℚ
  floodMem : List (NodeId × Nat)
deriving DecidableEq, Repr

def mkRelay (i : NodeId) (ns : List NodeId) (pdr : ℚ) : RelayState :=
  { id := i, neighbors := ns, pdr := pdr, floodMem := [] }

/-- Modelled from the spec: one fault decision drawn from the PDR.
The relay-local random draw `u` ranges over [0, 1); the fragment is
dropped exactly when `u < pdr`, so PDR = 0 never drops and PDR = 1
always drops. -/
def dropDecision (pdr u : ℚ) : Bool :=
  decide (u < pdr)

/-- Whether the flood memory records the (initiator_id, flood_id) key. -/
def seen (mem : List (NodeId × Nat)) (i : NodeId) (f : Nat) : Bool :=
  mem.any (fun q => q.1 == i && q.2 == f)

/-- Advance the routing cursor by one; every other field of the packet
is unchanged. -/
def advancePacket (p : Packet) : Packet :=
  { p with routing_header :=
      { p.routing_header with hop_index := p.routing_header.hop_index + 1 } }

/-- Send a routed packet to the hop its cursor names: the target is
`hops[hop_index]`.  Used for forwarded packets (after advancing) and
for self-generated responses built with hop_index = 1. -/
def routedSend (p : Packet) : List (NodeId × Packet) :=
  match p.routing_header.hops[p.routing_header.hop_index]? with
  | some t => [(t, p)]
  | none => []

/-- The fragment index reported in a generated Nack, read off the
offending packet. -/
def fragmentIndexOf (p : Packet) : Nat :=
  match p.pack_type with
  | PacketType.Fragment f => f.fragment_index
  | PacketType.Ack i => i
  | PacketType.Nack n => n.fragment_index
  | _ => 0

/-- Modelled from the spec: a generated Nack travels back along the
reversed traversed path - the reversal of `hops[0 ..= hop_index]` -
with the cursor reset to 1; the session id is kept. -/
def mkNackPacket (p : Packet) (t : NackType) : Packet :=
  { pack_type := PacketType.Nack
      { fragment_index := fragmentIndexOf p, nack_type := t },
    routing_header :=
      { hop_index := 1,
        hops := (p.routing_header.hops.take (p.routing_header.hop_index + 1)).reverse },
    session_id := p.session_id }

def isFragmentB (p : Packet) : Bool :=
  match p.pack_type with
  | PacketType.Fragment _ => true
  | _ => false

/-- Modelled from the spec: the FloodResponse a relay synthesizes when
it answers a FloodRequest (already-seen key, or dead end).  The trace
is the received trace plus (self, Drone); the hops are the reversal of
the new trace's ids, except that when the received trace is empty the
reverse path cannot be reconstructed from the trace and is taken as
[self, sender], the sender's id coming from the receiving channel's
association (spec section 9, open question); hop_index is 1. -/
def buildFloodResponse (selfId sender : NodeId) (fr : FloodRequest) (sid : Nat) : Packet :=
  let newTrace := fr.path_trace ++ [(selfId, NodeType.Drone)]
  { pack_type := PacketType.FloodResponse
      { flood_id := fr.flood_id, path_trace := newTrace },
    routing_header :=
      { hop_index := 1,
        hops := if fr.path_trace = [] then [selfId, sender]
                else (newTrace.map Prod.fst).reverse },
    session_id := sid }

/-- Modelled from the spec (section 4.1): FloodRequest handling.  If
the (initiator_id, flood_id) key is already recorded, answer
immediately with a FloodResponse toward the sender and do not forward.
Otherwise record the key and append (self, Drone) to the trace; if no
neighbor other than the sender exists, answer as a dead end; else
broadcast the trace-updated request, unchanged in routing header and
session id, to every neighbor except the sender. -/
def handleFloodRequest (st : RelayState) (sender : NodeId) (p : Packet)
    (fr : FloodRequest) : RelayState × List (NodeId × Packet) × List DroneEvent :=
  if seen st.floodMem fr.initiator_id fr.flood_id then
    let resp := buildFloodResponse st.id sender fr p.session_id
    (st, routedSend resp, [DroneEvent.PacketSent resp])
  else
    let st' := { st with floodMem := st.floodMem ++ [(fr.initiator_id, fr.flood_id)] }
    let others := st.neighbors.filter (fun n => !(n == sender))
    if others = [] then
      let resp := buildFloodResponse st.id sender fr p.session_id
      (st', routedSend resp, [DroneEvent.PacketSent resp])
    else
      let fwd : Packet :=
        { pack_type := PacketType.FloodRequest
            { fr with path_trace := fr.path_trace ++ [(st.id, NodeType.Drone)] },
          routing_header := p.routing_header,
          session_id := p.session_id }
      (st', others.map (fun n => (n, fwd)),
        others.map (fun _ => DroneEvent.PacketSent fwd))

/-- Modelled from the spec (section 4.1): FloodResponse handling is
pure forwarding - advance the cursor, send the otherwise unchanged
packet to `hops[hop_index]`, emit a sent event.  No deduplication. -/
def handleFloodResponse (st : RelayState) (p : Packet) :
    RelayState × List (NodeId × Packet) × List DroneEvent :=
  let fwd := advancePacket p
  (st, routedSend fwd, [DroneEvent.PacketSent fwd])

/-- Modelled from the spec (section 4.2): the forwarding engine for
data-plane packets (Fragment, Ack, Nack).  A Fragment whose cursor
already names the last valid index is answered with
Nack(DestinationIsDrone); an unknown or absent next hop is answered
with Nack(ErrorInRouting); a Fragment for which the PDR draw says
"drop" emits PacketDropped(original) then builds and sends
Nack(Dropped) toward the origin, emitting PacketSent for the Nack;
otherwise the packet is forwarded with only its cursor advanced,
emitting exactly one PacketSent. -/
def forwardEngine (st : RelayState) (p : Packet) (u : ℚ) :
    RelayState × List (NodeId × Packet) × List DroneEvent :=
  let h := p.routing_header
  if isFragmentB p && (h.hop_index + 1 == h.hops.length) then
    let nackP := mkNackPacket p NackType.DestinationIsDrone
    (st, routedSend nackP, [DroneEvent.PacketSent nackP])
  else
    match h.hops[h.hop_index + 1]? with
    | none =>
      let nackP := mkNackPacket p NackType.ErrorInRouting
      (st, routedSend nackP, [DroneEvent.PacketSent nackP])
    | some nxt =>
      if st.neighbors.contains nxt then
        if isFragmentB p && dropDecision st.pdr u then
          let nackP := mkNackPacket p NackType.Dropped
          (st, routedSend nackP,
            [DroneEvent.PacketDropped p, DroneEvent.PacketSent nackP])
        else
          let fwd := advancePacket p
          (st, routedSend fwd, [DroneEvent.PacketSent fwd])
      else
        let nackP := mkNackPacket p NackType.ErrorInRouting
        (st, routedSend nackP, [DroneEvent.PacketSent nackP])

/-- Modelled from the spec: one relay step - classify the packet and
delegate to flood handling or the forwarding engine.  `sender` is the
id associated with the receiving channel; `u` is the relay-local
random draw used only for the Fragment fault decision. -/
def relayStep (st : RelayState) (sender : NodeId) (p : Packet) (u : ℚ) :
    RelayState × List (NodeId × Packet) × List DroneEvent :=
  match p.pack_type with
  | PacketType.FloodRequest fr => handleFloodRequest st sender p fr
  | PacketType.FloodResponse _ => handleFloodResponse st p
  | _ => forwardEngine st p u

/-! ## Simulated network: relays wired over queues -/

/-- An in-flight message: destination node, sending node, packet. -/
structure Msg where
  dst : NodeId
  src : NodeId
  pkt : Packet
deriving DecidableEq, Repr

/-- Global network state: the relay states, the FIFO queue of
in-flight messages, the messages delivered to non-relay endpoints
(clients and servers), and the events the relays emitted. -/
structure NetState where
  relays : List RelayState
  queue : List Msg
  delivered : List Msg
  events : List (NodeId × DroneEvent)
deriving DecidableEq, Repr

def updateRelay (rs : List RelayState) (r : RelayState) : List RelayState :=
  rs.map (fun x => if x.id == r.id then r else x)

/-- Process the head of the message queue: a message addressed to a
relay is handed to `relayStep` (its sends are enqueued, its events
recorded); a message addressed to any other node is delivered. -/
def netStep (u : ℚ) (s : NetState) : NetState :=
  match s.queue with
  | [] => s
  | m :: rest =>
    match s.relays.find? (fun r => r.id == m.dst) with
    | some r =>
      let out := relayStep r m.src m.pkt u
      { relays := updateRelay s.relays out.1,
        queue := rest ++ out.2.1.map (fun t => { dst := t.1, src := m.dst, pkt := t.2 }),
        delivered := s.delivered,
        events := s.events ++ out.2.2.map (fun e => (m.dst, e)) }
    | none =>
      { s with queue := rest, delivered := s.delivered ++ [m] }

def netRun (u : ℚ) : Nat → NetState → NetState
  | 0, s => s
  | n + 1, s => netRun u n (netStep u s)

def deliveredTo (dst : NodeId) (s : NetState) : List Packet :=
  (s.delivered.filter (fun m => m.dst == dst)).map Msg.pkt

def mkNet (rs : List RelayState) (q : List Msg) : NetState :=
  { relays := rs, queue := q, delivered := [], events := [] }

/-- Packet kinds handled by plain forwarding: Fragment, Ack, Nack and
FloodResponse (everything except a FloodRequest). -/
def isForwardKind (p : Packet) : Bool :=
  match p.pack_type with
  | PacketType.Fragment _ => true
  | PacketType.Ack _ => true
  | PacketType.Nack _ => true
  | PacketType.FloodResponse _ => true
  | PacketType.FloodRequest _ => false

/-! ## Helper lemmas -/

/-- The forwarding engine never changes the relay state (in particular
the flood memory and the PDR are untouched by data-plane packets). -/
theorem forwardEngine_state (st : RelayState) (p : Packet) (u : ℚ) :
    (forwardEngine st p u).1 = st := by
  simp only [forwardEngine]
  repeat' (first | rfl | split)

/-- Recording one (initiator, flood) key leaves every other key
unseen exactly as before: deduplication keys are joint and
independent. -/
theorem seen_append_ne (mem : List (NodeId × Nat)) (i1 i2 : NodeId) (f1 f2 : Nat)
    (hk : ¬(i1 = i2 ∧ f1 = f2)) :
    seen (mem ++ [(i1, f1)]) i2 f2 = seen mem i2 f2 := by
  have hkey : (i1 == i2 && f1 == f2) = false := by
    by_contra hc
    rw [Bool.not_eq_false, Bool.and_eq_true, beq_iff_eq, beq_iff_eq] at hc
    exact hk hc
  simp only [seen, List.any_append, List.any_cons, List.any_nil, hkey, Bool.or_false]

/-! ## Scenarios of the harness (topologies and expected packets,
taken from the generic tests) -/

/-- The FloodRequest that clients 1 injects in scenarios A, B and the
known-flood scenario: flood_id 1, initiator 1, trace [(1, Client)]. -/
def floodReqC1 : Packet := create_sample_flood_req 1 1 [(1, NodeType.Client)]

/-- Scenario A: relay 11, sole neighbor 1, receives `floodReqC1` from 1. -/
def scenarioA : NetState :=
  mkNet [mkRelay 11 [1] 0] [⟨11, 1, floodReqC1⟩]

def deadEndRes : Packet :=
  create_flood_res 1 [(1, NodeType.Client), (11, NodeType.Drone)]
    (SourceRoutingHeader.new [11, 1] 1)

/-- The no-initiator scenario: relay 11, sole neighbor 1, receives a
FloodRequest whose path_trace is empty. -/
def scenarioNoInit : NetState :=
  mkNet [mkRelay 11 [1] 0] [⟨11, 1, create_sample_flood_req 1 1 []⟩]

def noInitRes : Packet :=
  create_flood_res 1 [(11, NodeType.Drone)] (SourceRoutingHeader.new [11, 1] 1)

/-- Scenario B: relay 11 with neighbors {1, 12, 13}; relays 12 and 13
are dead ends back toward 11. -/
def scenarioB : NetState :=
  mkNet [mkRelay 11 [1, 12, 13] 0, mkRelay 12 [11] 0, mkRelay 13 [11] 0]
    [⟨11, 1, floodReqC1⟩]

def floodResD12 : Packet :=
  create_flood_res 1
    [(1, NodeType.Client), (11, NodeType.Drone), (12, NodeType.Drone)]
    (SourceRoutingHeader.new [12, 11, 1] 2)

def floodResD13 : Packet :=
  create_flood_res 1
    [(1, NodeType.Client), (11, NodeType.Drone), (13, NodeType.Drone)]
    (SourceRoutingHeader.new [13, 11, 1] 2)

/-- The known-flood scenario: relay 11 with neighbors {1, 12}, relay 12
a dead end; client 1 sends the same request twice. -/
def scenarioKnown : NetState :=
  mkNet [mkRelay 11 [1, 12] 0, mkRelay 12 [11] 0]
    [⟨11, 1, floodReqC1⟩, ⟨11, 1, floodReqC1⟩]

def directRes : Packet :=
  create_flood_res 1 [(1, NodeType.Client), (11, NodeType.Drone)]
    (SourceRoutingHeader.new [11, 1] 1)

def viaRes12 : Packet :=
  create_flood_res 1
    [(1, NodeType.Client), (11, NodeType.Drone), (12, NodeType.Drone)]
    (SourceRoutingHeader.new [12, 11, 1] 2)

/-- The two-initiator scenario: relay 11 with sole neighbor 12 receives
requests with the same flood_id from initiators 1 and 2, in this order. -/
def twoInitNetA : NetState :=
  mkNet [mkRelay 11 [12] 0]
    [⟨11, 1, create_sample_flood_req 1 1 [(1, NodeType.Client)]⟩,
     ⟨11, 2, create_sample_flood_req 1 2 [(2, NodeType.Client)]⟩]

/-- The two-initiator scenario with the two requests in the other
arrival order. -/
def twoInitNetB : NetState :=
  mkNet [mkRelay 11 [12] 0]
    [⟨11, 2, create_sample_flood_req 1 2 [(2, NodeType.Client)]⟩,
     ⟨11, 1, create_sample_flood_req 1 1 [(1, NodeType.Client)]⟩]

def fwdInit1 : Packet :=
  create_sample_flood_req 1 1 [(1, NodeType.Client), (11, NodeType.Drone)]

def fwdInit2 : Packet :=
  create_sample_flood_req 1 2 [(2, NodeType.Client), (11, NodeType.Drone)]

/-- The Fragment addressed [1, 11, 12, 21] with the cursor at relay 11. -/
def dropMsg : Packet := create_sample_packet 1 [1, 11, 12, 21]

/-- The Nack a relay 11 with PDR 1 generates for `dropMsg`. -/
def dropNackPkt : Packet := get_nack 1 [11, 1] NackType.Dropped

/-- The chained-drop scenario: relay 11 (PDR 0) then relay 12 (PDR 1)
on the way to server 21. -/
def chainDropNet : NetState :=
  mkNet [mkRelay 11 [12, 1] 0, mkRelay 12 [11, 21] 1]
    [⟨11, 1, dropMsg⟩]

def chainDropNack : Packet :=
  { pack_type := PacketType.Nack { fragment_index := 1, nack_type := NackType.Dropped },
    routing_header := { hop_index := 2, hops := [12, 11, 1] },
    session_id := 1 }

/-- The destination-is-drone scenario: relay 11, neighbor 1, receives a
Fragment whose header names 11 as final hop. -/
def destNet : NetState :=
  mkNet [mkRelay 11 [1] 0] [⟨11, 1, create_sample_packet 1 [1, 11]⟩]

def sampleFragment : Fragment :=
  { fragment_index := 1, total_n_fragments := 1, length := 128,
    data := List.replicate 128 1 }

/-! ## Claim theorems -/

/-- Claim C1: a first FloodRequest with a fresh (initiator_id, flood_id)
key at a relay that has neighbors other than the sender is broadcast -
the relay appends (self, Drone) to the path_trace and sends the
request, unchanged in routing header and session id, to every neighbor
except the sender; in the Scenario B topology (relay 11 with neighbors
{1, 12, 13}, request from client 1 with trace [(1, Client)]), client 1
receives, in either order, the two FloodResponses retraced through 12
(hops [12, 11, 1], hop_index 2) and through 13 (hops [13, 11, 1],
hop_index 2). -/
theorem flood_fanout_broadcast :
    (∀ (st : RelayState) (sender : NodeId) (fr : FloodRequest)
        (h : SourceRoutingHeader) (sid : Nat) (u : ℚ),
      seen st.floodMem fr.initiator_id fr.flood_id = false →
      st.neighbors.filter (fun n => !(n == sender)) ≠ [] →
      relayStep st sender ⟨PacketType.FloodRequest fr, h, sid⟩ u =
        ({ st with floodMem := st.floodMem ++ [(fr.initiator_id, fr.flood_id)] },
         (st.neighbors.filter (fun n => !(n == sender))).map
           (fun n => (n, ⟨PacketType.FloodRequest
              { fr with path_trace := fr.path_trace ++ [(st.id, NodeType.Drone)] }, h, sid⟩)),
         (st.neighbors.filter (fun n => !(n == sender))).map
           (fun _ => DroneEvent.PacketSent ⟨PacketType.FloodRequest
              { fr with path_trace := fr.path_trace ++ [(st.id, NodeType.Drone)] }, h, sid⟩))) ∧
    (∀ u : ℚ,
      deliveredTo 1 (netRun u 10 scenarioB) = [floodResD12, floodResD13] ∨
      deliveredTo 1 (netRun u 10 scenarioB) = [floodResD13, floodResD12]) := by
  constructor
  · intro st sender fr h sid u hseen hne
    simp [relayStep, handleFloodRequest, hseen, hne]
  · intro u
    left
    simp [netRun, netStep, relayStep, handleFloodRequest, handleFloodResponse,
          buildFloodResponse, scenarioB, mkNet, mkRelay, floodReqC1,
          create_sample_flood_req, create_flood_res, Packet.new_flood_response,
          SourceRoutingHeader.new, updateRelay, deliveredTo, routedSend,
          advancePacket, seen, floodResD12, floodResD13]

def fanoutFwdPkt : Packet :=
  create_sample_flood_req 1 1 [(1, NodeType.Client), (11, NodeType.Drone)]

theorem flood_fanout_broadcast_witness :
    relayStep (mkRelay 11 [1, 12, 13] 0) 1 floodReqC1 0 =
      ({ id := 11, neighbors := [1, 12, 13], pdr := 0, floodMem := [(1, 1)] },
       [(12, fanoutFwdPkt), (13, fanoutFwdPkt)],
       [DroneEvent.PacketSent fanoutFwdPkt, DroneEvent.PacketSent fanoutFwdPkt]) :=
  flood_fanout_broadcast.1 (mkRelay 11 [1, 12, 13] 0) 1
    { flood_id := 1, initiator_id := 1, path_trace := [(1, NodeType.Client)] }
    { hop_index := 0, hops := [] } 1 0 rfl (by decide)

/-- Claim C2: a FloodRequest whose (initiator_id, flood_id) key is
already recorded is answered immediately and never re-forwarded: the
relay builds trace = received trace + (self, Drone), reverses it into
the hops with hop_index 1, and sends that FloodResponse back toward
the sender; in the known-flood scenario (relay 11 with neighbors
{1, 12}, the same request from client 1 twice) the client receives
exactly one response retraced via 12 (hops [12, 11, 1], hop_index 2)
and one direct answer (hops [11, 1], hop_index 1). -/
theorem known_flood_immediate_answer :
    (∀ (st : RelayState) (sender : NodeId) (fr : FloodRequest)
        (h : SourceRoutingHeader) (sid : Nat) (u : ℚ),
      seen st.floodMem fr.initiator_id fr.flood_id = true →
      relayStep st sender ⟨PacketType.FloodRequest fr, h, sid⟩ u =
        (st, routedSend (buildFloodResponse st.id sender fr sid),
         [DroneEvent.PacketSent (buildFloodResponse st.id sender fr sid)])) ∧
    (∀ u : ℚ,
      deliveredTo 1 (netRun u 10 scenarioKnown) = [directRes, viaRes12] ∨
      deliveredTo 1 (netRun u 10 scenarioKnown) = [viaRes12, directRes]) := by
  constructor
  · intro st sender fr h sid u hseen
    simp [relayStep, handleFloodRequest, hseen]
  · intro u
    left
    simp [netRun, netStep, relayStep, handleFloodRequest, handleFloodResponse,
          buildFloodResponse, scenarioKnown, mkNet, mkRelay, floodReqC1,
          create_sample_flood_req, create_flood_res, Packet.new_flood_response,
          SourceRoutingHeader.new, updateRelay, deliveredTo, routedSend,
          advancePacket, seen, directRes, viaRes12]

theorem known_flood_immediate_answer_witness :
    relayStep ⟨11, [1, 12], 0, [(1, 1)]⟩ 1 floodReqC1 0 =
      (⟨11, [1, 12], 0, [(1, 1)]⟩, [(1, directRes)],
       [DroneEvent.PacketSent directRes]) :=
  known_flood_immediate_answer.1 ⟨11, [1, 12], 0, [(1, 1)]⟩ 1
    { flood_id := 1, initiator_id := 1, path_trace := [(1, NodeType.Client)] }
    { hop_index := 0, hops := [] } 1 0 rfl

/-- Claim C3: drop decisions are deterministic at the extremes - a
relay with PDR 1 always drops a received Fragment and a relay with
PDR 0 never drops; each fault-drop emits exactly one PacketDropped
carrying the unadvanced original Fragment followed by one PacketSent
carrying the generated Nack(Dropped) routed over the reversed
traversed path with hop_index 1; and in the chain client 1, relay 11
(PDR 0), relay 12 (PDR 1), server 21, a Fragment addressed
[1, 11, 12, 21] yields Nack(Dropped) at the client with
hops [12, 11, 1] and hop_index 2. -/
theorem pdr_extremes_and_drop_events :
    (∀ u : ℚ, 0 ≤ u → dropDecision 0 u = false) ∧
    (∀ u : ℚ, u < 1 → dropDecision 1 u = true) ∧
    (∀ u : ℚ, u < 1 →
      relayStep (mkRelay 11 [12, 1] 1) 1 dropMsg u =
        ((mkRelay 11 [12, 1] 1), [(1, dropNackPkt)],
         [DroneEvent.PacketDropped dropMsg, DroneEvent.PacketSent dropNackPkt])) ∧
    (∀ u : ℚ, 0 ≤ u →
      relayStep (mkRelay 11 [12, 1] 0) 1 dropMsg u =
        ((mkRelay 11 [12, 1] 0), [(12, advancePacket dropMsg)],
         [DroneEvent.PacketSent (advancePacket dropMsg)])) ∧
    (∀ u : ℚ, 0 ≤ u → u < 1 →
      deliveredTo 1 (netRun u 6 chainDropNet) = [chainDropNack]) := by
  refine ⟨?_, ?_, ?_, ?_, ?_⟩
  · intro u hu0
    simp only [dropDecision, decide_eq_false_iff_not]
    exact not_lt.mpr hu0
  · intro u hu1
    simp only [dropDecision, decide_eq_true_eq]
    exact hu1
  · intro u hu1
    have h1 : dropDecision 1 u = true := by
      simp only [dropDecision, decide_eq_true_eq]
      exact hu1
    simp [relayStep, forwardEngine, isFragmentB, mkRelay, dropMsg, dropNackPkt,
          create_sample_packet, Packet.new_fragment, get_nack, Packet.new_nack,
          routedSend, mkNackPacket, fragmentIndexOf, h1]
  · intro u hu0
    have h0 : dropDecision 0 u = false := by
      simp only [dropDecision, decide_eq_false_iff_not]
      exact not_lt.mpr hu0
    simp [relayStep, forwardEngine, isFragmentB, mkRelay, dropMsg,
          create_sample_packet, Packet.new_fragment,
          routedSend, mkNackPacket, fragmentIndexOf, advancePacket, h0]
  · intro u hu0 hu1
    have h0 : dropDecision 0 u = false := by
      simp only [dropDecision, decide_eq_false_iff_not]
      exact not_lt.mpr hu0
    have h1 : dropDecision 1 u = true := by
      simp only [dropDecision, decide_eq_true_eq]
      exact hu1
    simp [netRun, netStep, relayStep, forwardEngine, handleFloodRequest,
          handleFloodResponse, chainDropNet, mkNet, mkRelay, create_sample_packet,
          Packet.new_fragment, updateRelay, deliveredTo, routedSend, mkNackPacket,
          fragmentIndexOf, advancePacket, isFragmentB, seen, h0, h1, dropMsg,
          chainDropNack]

theorem pdr_extremes_and_drop_events_witness :
    dropDecision 0 0 = false ∧ dropDecision 1 0 = true ∧
    relayStep (mkRelay 11 [12, 1] 1) 1 dropMsg 0 =
      ((mkRelay 11 [12, 1] 1), [(1, dropNackPkt)],
       [DroneEvent.PacketDropped dropMsg, DroneEvent.PacketSent dropNackPkt]) ∧
    relayStep (mkRelay 11 [12, 1] 0) 1 dropMsg 0 =
      ((mkRelay 11 [12, 1] 0), [(12, advancePacket dropMsg)],
       [DroneEvent.PacketSent (advancePacket dropMsg)]) ∧
    deliveredTo 1 (netRun 0 6 chainDropNet) = [chainDropNack] :=
  ⟨pdr_extremes_and_drop_events.1 0 (by decide),
   pdr_extremes_and_drop_events.2.1 0 (by decide),
   pdr_extremes_and_drop_events.2.2.1 0 (by decide),
   pdr_extremes_and_drop_events.2.2.2.1 0 (by decide),
   pdr_extremes_and_drop_events.2.2.2.2 0 (by decide) (by decide)⟩

/-- Claim C4: a relay whose only neighbor is the sender, on a fresh
FloodRequest, synthesizes a FloodResponse from the trace-so-far plus
(self, Drone) and forwards nothing further; in scenario A (relay 11,
sole neighbor 1, FloodRequest{flood_id 1, initiator 1,
trace [(1, Client)]}) neighbor 1 receives exactly
FloodResponse{flood_id 1, trace [(1, Client), (11, Drone)]} with
hops [11, 1] and hop_index 1. -/
theorem dead_end_flood_answer :
    (∀ (st : RelayState) (sender : NodeId) (fr : FloodRequest)
        (h : SourceRoutingHeader) (sid : Nat) (u : ℚ),
      seen st.floodMem fr.initiator_id fr.flood_id = false →
      st.neighbors.filter (fun n => !(n == sender)) = [] →
      relayStep st sender ⟨PacketType.FloodRequest fr, h, sid⟩ u =
        ({ st with floodMem := st.floodMem ++ [(fr.initiator_id, fr.flood_id)] },
         routedSend (buildFloodResponse st.id sender fr sid),
         [DroneEvent.PacketSent (buildFloodResponse st.id sender fr sid)])) ∧
    (∀ u : ℚ, deliveredTo 1 (netRun u 4 scenarioA) = [deadEndRes]) := by
  constructor
  · intro st sender fr h sid u hseen hdead
    simp [relayStep, handleFloodRequest, hseen, hdead]
  · intro u
    rfl

theorem dead_end_flood_answer_witness :
    relayStep (mkRelay 11 [1] 0) 1 floodReqC1 0 =
      ({ id := 11, neighbors := [1], pdr := 0, floodMem := [(1, 1)] },
       [(1, deadEndRes)], [DroneEvent.PacketSent deadEndRes]) :=
  dead_end_flood_answer.1 (mkRelay 11 [1] 0) 1
    { flood_id := 1, initiator_id := 1, path_trace := [(1, NodeType.Client)] }
    { hop_index := 0, hops := [] } 1 0 rfl rfl

/-- Claim C5: when a relay forwards a packet - a Fragment for which no
drop was drawn, an Ack, a Nack, or a FloodResponse (the latter kinds
never consult the drop decision) - the only change to the packet is
hop_index advanced by one; pack_type, hops and session_id are
unchanged, and exactly one PacketSent event carrying the advanced
packet is emitted. -/
theorem forward_advances_cursor_only :
    (∀ (st : RelayState) (sender : NodeId) (p : Packet) (u : ℚ) (nxt : NodeId),
      isForwardKind p = true →
      p.routing_header.hops[p.routing_header.hop_index + 1]? = some nxt →
      nxt ∈ st.neighbors →
      (isFragmentB p = true → dropDecision st.pdr u = false) →
      relayStep st sender p u =
        (st, [(nxt, advancePacket p)], [DroneEvent.PacketSent (advancePacket p)])) ∧
    (∀ p : Packet,
      (advancePacket p).pack_type = p.pack_type ∧
      (advancePacket p).routing_header.hops = p.routing_header.hops ∧
      (advancePacket p).session_id = p.session_id ∧
      (advancePacket p).routing_header.hop_index = p.routing_header.hop_index + 1) := by
  constructor
  · intro st sender p u nxt hkind hget hneigh hnodrop
    obtain ⟨pt, rh, sid⟩ := p
    have hlt : rh.hop_index + 1 < rh.hops.length := by
      rcases List.getElem?_eq_some.mp hget with ⟨hl, _⟩
      exact hl
    have hbeq : (rh.hop_index + 1 == rh.hops.length) = false := by
      simp [Nat.ne_of_lt hlt]
    cases pt with
    | Fragment f =>
      have hd : dropDecision st.pdr u = false := hnodrop rfl
      simp [relayStep, forwardEngine, isFragmentB, hbeq, hget, hneigh, hd,
            routedSend, advancePacket]
    | Ack i =>
      simp [relayStep, forwardEngine, isFragmentB, hbeq, hget, hneigh,
            routedSend, advancePacket]
    | Nack n =>
      simp [relayStep, forwardEngine, isFragmentB, hbeq, hget, hneigh,
            routedSend, advancePacket]
    | FloodResponse fr =>
      simp [relayStep, handleFloodResponse, routedSend, advancePacket, hget]
    | FloodRequest fr =>
      simp [isForwardKind] at hkind
  · intro p
    exact ⟨rfl, rfl, rfl, rfl⟩

theorem forward_advances_cursor_only_witness :
    relayStep (mkRelay 11 [12] 0) 1 (get_ack 1 [1, 11, 12, 21]) 0 =
      ((mkRelay 11 [12] 0), [(12, advancePacket (get_ack 1 [1, 11, 12, 21]))],
       [DroneEvent.PacketSent (advancePacket (get_ack 1 [1, 11, 12, 21]))]) :=
  forward_advances_cursor_only.1 (mkRelay 11 [12] 0) 1 (get_ack 1 [1, 11, 12, 21])
    0 12 rfl rfl (by decide) (fun hf => Bool.noConfusion hf)

/-- Claim C6: a Fragment whose header names the receiving relay as the
final hop (hop_index already the last valid index) is answered with
exactly one Nack(DestinationIsDrone) along the reversed traversed path
and is not forwarded; a Fragment with hops [1, 11] and hop_index 1
arriving at relay 11 yields at client 1 a Nack(DestinationIsDrone)
with hops [11, 1] and hop_index 1. -/
theorem destination_is_drone_nack :
    (∀ (st : RelayState) (sender : NodeId) (p : Packet) (u : ℚ) (f : Fragment),
      p.pack_type = PacketType.Fragment f →
      p.routing_header.hop_index + 1 = p.routing_header.hops.length →
      relayStep st sender p u =
        (st, routedSend (mkNackPacket p NackType.DestinationIsDrone),
         [DroneEvent.PacketSent (mkNackPacket p NackType.DestinationIsDrone)])) ∧
    (∀ u : ℚ, deliveredTo 1 (netRun u 3 destNet) =
      [get_nack 1 [11, 1] NackType.DestinationIsDrone]) := by
  constructor
  · intro st sender p u f hp hlen
    obtain ⟨pt, rh, sid⟩ := p
    subst hp
    simp only [] at hlen
    simp [relayStep, forwardEngine, isFragmentB, hlen]
  · intro u
    rfl

theorem destination_is_drone_nack_witness :
    relayStep (mkRelay 11 [1] 0) 1 (create_sample_packet 1 [1, 11]) 0 =
      ((mkRelay 11 [1] 0),
       [(1, get_nack 1 [11, 1] NackType.DestinationIsDrone)],
       [DroneEvent.PacketSent (get_nack 1 [11, 1] NackType.DestinationIsDrone)]) :=
  destination_is_drone_nack.1 (mkRelay 11 [1] 0) 1 (create_sample_packet 1 [1, 11])
    0 sampleFragment rfl rfl

/-- Claim C7: FloodRequests sharing a flood_id but carrying different
initiator ids are deduplicated independently under the joint
(initiator_id, flood_id) key - processing a packet never changes
whether another key counts as seen - and, in either arrival order at
relay 11 (sole neighbor 12), both requests propagate past the relay,
each forwarded with (11, Drone) appended to its own path_trace. -/
theorem two_initiators_independent :
    (∀ (st : RelayState) (sender : NodeId) (p : Packet) (u : ℚ)
        (i2 : NodeId) (f2 : Nat),
      (∀ fr : FloodRequest, p.pack_type = PacketType.FloodRequest fr →
        ¬(fr.initiator_id = i2 ∧ fr.flood_id = f2)) →
      seen (relayStep st sender p u).1.floodMem i2 f2 = seen st.floodMem i2 f2) ∧
    (∀ u : ℚ,
      (deliveredTo 12 (netRun u 6 twoInitNetA) = [fwdInit1, fwdInit2] ∨
       deliveredTo 12 (netRun u 6 twoInitNetA) = [fwdInit2, fwdInit1]) ∧
      (deliveredTo 12 (netRun u 6 twoInitNetB) = [fwdInit1, fwdInit2] ∨
       deliveredTo 12 (netRun u 6 twoInitNetB) = [fwdInit2, fwdInit1])) := by
  constructor
  · intro st sender p u i2 f2 hne
    obtain ⟨pt, rh, sid⟩ := p
    cases pt with
    | FloodRequest fr =>
      have happ := seen_append_ne st.floodMem fr.initiator_id i2 fr.flood_id f2 (hne fr rfl)
      by_cases hs : seen st.floodMem fr.initiator_id fr.flood_id = true
      · simp only [relayStep, handleFloodRequest, hs, if_true]
      · rw [Bool.not_eq_true] at hs
        simp only [relayStep, handleFloodRequest, hs, Bool.false_eq_true, if_false]
        split
        · exact happ
        · exact happ
    | Fragment f =>
      have hr : relayStep st sender ⟨PacketType.Fragment f, rh, sid⟩ u =
          forwardEngine st ⟨PacketType.Fragment f, rh, sid⟩ u := rfl
      rw [hr, forwardEngine_state]
    | Ack i =>
      have hr : relayStep st sender ⟨PacketType.Ack i, rh, sid⟩ u =
          forwardEngine st ⟨PacketType.Ack i, rh, sid⟩ u := rfl
      rw [hr, forwardEngine_state]
    | Nack n =>
      have hr : relayStep st sender ⟨PacketType.Nack n, rh, sid⟩ u =
          forwardEngine st ⟨PacketType.Nack n, rh, sid⟩ u := rfl
      rw [hr, forwardEngine_state]
    | FloodResponse fr =>
      simp [relayStep, handleFloodResponse]
  · intro u
    exact ⟨Or.inl rfl, Or.inr rfl⟩

theorem two_initiators_independent_witness :
    seen (relayStep (mkRelay 11 [12] 0) 1 floodReqC1 0).1.floodMem 2 1 =
      seen (mkRelay 11 [12] 0).floodMem 2 1 :=
  two_initiators_independent.1 (mkRelay 11 [12] 0) 1 floodReqC1 0 2 1
    (by
      intro fr h
      injection h with h1
      subst h1
      decide)

/-- Claim C9: a relay whose only neighbor is the sender, receiving a
fresh FloodRequest whose path_trace is empty, still answers: the
FloodResponse carries path_trace [(self, Drone)] only - the missing
initiator entry is not reconstructed into the trace - while the
routing header is hops [self, sender] with hop_index 1, the sender id
being recovered from the receiving channel's association. -/
theorem empty_trace_flood_answer :
    (∀ (st : RelayState) (sender : NodeId) (fr : FloodRequest)
        (h : SourceRoutingHeader) (sid : Nat) (u : ℚ),
      fr.path_trace = [] →
      seen st.floodMem fr.initiator_id fr.flood_id = false →
      st.neighbors.filter (fun n => !(n == sender)) = [] →
      relayStep st sender ⟨PacketType.FloodRequest fr, h, sid⟩ u =
        ({ st with floodMem := st.floodMem ++ [(fr.initiator_id, fr.flood_id)] },
         [(sender,
           ⟨PacketType.FloodResponse
              { flood_id := fr.flood_id, path_trace := [(st.id, NodeType.Drone)] },
            ⟨1, [st.id, sender]⟩, sid⟩)],
         [DroneEvent.PacketSent
           ⟨PacketType.FloodResponse
              { flood_id := fr.flood_id, path_trace := [(st.id, NodeType.Drone)] },
            ⟨1, [st.id, sender]⟩, sid⟩])) ∧
    (∀ u : ℚ, deliveredTo 1 (netRun u 4 scenarioNoInit) = [noInitRes]) := by
  constructor
  · intro st sender fr h sid u hempty hseen hdead
    simp [relayStep, handleFloodRequest, hseen, hdead, buildFloodResponse, hempty,
          routedSend]
  · intro u
    rfl

theorem empty_trace_flood_answer_witness :
    relayStep (mkRelay 11 [1] 0) 1 (create_sample_flood_req 1 1 []) 0 =
      ({ id := 11, neighbors := [1], pdr := 0, floodMem := [(1, 1)] },
       [(1, noInitRes)], [DroneEvent.PacketSent noInitRes]) :=
  empty_trace_flood_answer.1 (mkRelay 11 [1] 0) 1
    { flood_id := 1, initiator_id := 1, path_trace := [] }
    { hop_index := 0, hops := [] } 1 0 rfl rfl rfl

/-- Claim C10: the order-tolerance check of the harness succeeds exactly
when the received value equals one of the two expected values; hence a
two-message verification loop built on it also passes when the same one
expected value is received twice - distinctness of the two
nondeterministic outcomes is not enforced. -/
theorem assert_matches_any_semantics :
    (∀ res a b : Packet, assert_matches_any res a b = true ↔ res = a ∨ res = b) ∧
    (∀ a b : Packet, two_recv_check a a a b = true) := by
  constructor
  · intro res a b
    simp [assert_matches_any]
  · intro a b
    simp [two_recv_check, assert_matches_any]
